import Mathlib

/-!
Shallow embedding of src/port/thread.c from the repository: the two
platform-normalizing wrappers pqGetpwuid and pqGethostbyname.

Each wrapper has two compile-time strategies selected by preprocessor
flags in the C source:
  - reentrant: delegate to the platform reentrant form (getpwuid_r,
    gethostbyname_r);
  - legacy: call the non-reentrant form (getpwuid, gethostbyname) and
    normalize its implicit error reporting (errno, h_errno) into the
    explicit POSIX-style three-way contract.

The platform lookups are modelled as abstract data (structures holding
the lookup function), since their behaviour is the operating system
runtime, not code of this repository.  Ambient globals (errno, h_errno),
the caller output slots and the caller buffers are threaded through an
explicit state record.  The state also carries a counter of platform
lookup invocations, so that "the wrapper performs exactly one platform
call and never retries internally" is expressible.
-/

namespace Pg

/-- A pointer value as seen through the wrapper interface: either a
reference into platform static / thread-local storage, or a reference
into a caller-owned buffer.  The index is an abstract location. -/
inductive PtrVal where
  | staticStore (i : Nat)
  | callerBuf (i : Nat)
deriving DecidableEq, Repr

/-- Machine state threaded through pqGetpwuid: the ambient errno, the
caller output reference slot (*result), the caller result record bytes
(resultbuf), the caller scratch buffer bytes and its declared length
(buffer, buflen), and a count of platform lookup invocations. -/
structure PwState where
  errno : Int
  resultSlot : Option PtrVal
  resultbuf : List Nat
  buffer : List Nat
  buflen : Nat
  calls : Nat
deriving DecidableEq, Repr

/-- Behaviour of the platform legacy getpwuid: for a uid it yields the
returned pointer into static storage (none = NULL) and the value, if
any, it stores into errno (none = leaves errno untouched). -/
structure PwPlatformLegacy where
  lookup : Nat → Option Nat × Option Int

/-- Outputs of one platform getpwuid_r call: the POSIX status code, the
pointer stored into *result, and the (possibly rewritten) contents of
the caller record and scratch buffer. -/
structure PwROut where
  status : Int
  result : Option PtrVal
  resultbuf : List Nat
  buffer : List Nat
deriving DecidableEq, Repr

/-- Behaviour of the platform reentrant getpwuid_r, as a function of the
uid, the caller record, the scratch buffer and its declared length. -/
structure PwPlatformReentrant where
  call : Nat → List Nat → List Nat → Nat → PwROut

/-- The POSIX getpwuid_r contract assumed of a conforming platform: a
non-zero status is returned only together with a NULL *result. -/
def PosixPwContract (p : PwPlatformReentrant) : Prop :=
  ∀ uid rb b n, (p.call uid rb b n).status ≠ 0 → (p.call uid rb b n).result = none

/-- pqGetpwuid, reentrant branch of the C source:
`return getpwuid_r(uid, resultbuf, buffer, buflen, result);`
One platform call; status, *result and buffer effects are those of the
platform call on the same five arguments. -/
def pqGetpwuidReentrant (plat : PwPlatformReentrant) (uid : Nat)
    (s : PwState) : Int × PwState :=
  let o := plat.call uid s.resultbuf s.buffer s.buflen
  (o.status,
    { s with resultSlot := o.result, resultbuf := o.resultbuf,
             buffer := o.buffer, calls := s.calls + 1 })

/-- pqGetpwuid, legacy branch of the C source:
`errno = 0; *result = getpwuid(uid);
 return (*result == NULL) ? errno : 0;`
errno is cleared, the platform lookup may overwrite it, the result
pointer is stored into *result, and on a NULL result the errno value at
that instant is returned. -/
def pqGetpwuidLegacy (plat : PwPlatformLegacy) (uid : Nat)
    (s : PwState) : Int × PwState :=
  let res := (plat.lookup uid).1
  let errnoAfter := ((plat.lookup uid).2).getD 0
  let slot := res.map PtrVal.staticStore
  let ret : Int := if slot = none then errnoAfter else 0
  (ret, { s with errno := errnoAfter, resultSlot := slot,
                 calls := s.calls + 1 })

/-- The compile-time strategy selected by the preprocessor flags
(FRONTEND, ENABLE_THREAD_SAFETY, HAVE_GETPWUID_R / HAVE_GETHOSTBYNAME_R). -/
inductive Strategy where
  | reentrant
  | legacy
deriving DecidableEq, Repr

/-- pqGetpwuid with the build-time strategy dispatch made explicit. -/
def pqGetpwuid (strat : Strategy) (rplat : PwPlatformReentrant)
    (lplat : PwPlatformLegacy) (uid : Nat) (s : PwState) : Int × PwState :=
  match strat with
  | .reentrant => pqGetpwuidReentrant rplat uid s
  | .legacy => pqGetpwuidLegacy lplat uid s

/-- Machine state threaded through pqGethostbyname: the ambient h_errno
global, the caller output reference slot (*result), the caller output
error slot (*herrno), the caller record and scratch buffer with its
declared length, and a count of platform lookup invocations. -/
structure HostState where
  hErrnoGlobal : Int
  resultSlot : Option PtrVal
  herrnoSlot : Int
  resultbuf : List Nat
  buffer : List Nat
  buflen : Nat
  calls : Nat
deriving DecidableEq, Repr

/-- Behaviour of the platform legacy gethostbyname: for a name it yields
the returned pointer into static storage (none = NULL) and the value, if
any, it stores into the h_errno global (none = leaves it untouched). -/
structure HostPlatformLegacy where
  lookup : String → Option Nat × Option Int

/-- Outputs of one platform gethostbyname_r call (the early-draft
variant used by the C source, which returns a struct hostent pointer):
the returned pointer, the value it writes through the herrno argument
(none = leaves it untouched), and the buffer contents it leaves. -/
structure HostROut where
  result : Option PtrVal
  herrnoWrite : Option Int
  resultbuf : List Nat
  buffer : List Nat
deriving DecidableEq, Repr

/-- Behaviour of the platform reentrant gethostbyname_r, as a function
of the name, the caller record, the scratch buffer and its length. -/
structure HostPlatformReentrant where
  call : String → List Nat → List Nat → Nat → HostROut

/-- pqGethostbyname, reentrant branch of the C source:
`*result = gethostbyname_r(name, resultbuf, buffer, buflen, herrno);
 return (*result == NULL) ? -1 : 0;`
The platform-variable return convention is normalized: the stored
pointer alone decides the status. -/
def pqGethostbynameReentrant (plat : HostPlatformReentrant) (name : String)
    (s : HostState) : Int × HostState :=
  let o := plat.call name s.resultbuf s.buffer s.buflen
  let s1 := { s with resultSlot := o.result,
                     herrnoSlot := (o.herrnoWrite).getD s.herrnoSlot,
                     resultbuf := o.resultbuf, buffer := o.buffer,
                     calls := s.calls + 1 }
  ((if o.result = none then -1 else 0), s1)

/-- pqGethostbyname, legacy branch of the C source:
`*result = gethostbyname(name);
 if (*result != NULL) *herrno = h_errno;
 if (*result != NULL) return 0; else return -1;`
The h_errno global is read immediately after the lookup, and copied into
*herrno only on a non-NULL result. -/
def pqGethostbynameLegacy (plat : HostPlatformLegacy) (name : String)
    (s : HostState) : Int × HostState :=
  let res := (plat.lookup name).1
  let hAfter := ((plat.lookup name).2).getD s.hErrnoGlobal
  let slot := res.map PtrVal.staticStore
  let herr := if slot ≠ none then hAfter else s.herrnoSlot
  let s1 := { s with hErrnoGlobal := hAfter, resultSlot := slot,
                     herrnoSlot := herr, calls := s.calls + 1 }
  ((if slot = none then -1 else 0), s1)

/-- pqGethostbyname with the build-time strategy dispatch made explicit. -/
def pqGethostbyname (strat : Strategy) (rplat : HostPlatformReentrant)
    (lplat : HostPlatformLegacy) (name : String) (s : HostState) :
    Int × HostState :=
  match strat with
  | .reentrant => pqGethostbynameReentrant rplat name s
  | .legacy => pqGethostbynameLegacy lplat name s

/-- Claim C1: pqGetpwuid obeys the three-way outcome contract: found ⇒
status zero with non-null *result; not found (NULL result, errno left
clear) ⇒ status zero with *result null; lookup failure (NULL result,
errno set to e) ⇒ status e with *result null; and in both strategies a
non-zero status is never returned together with a non-null *result
(assuming, for the reentrant strategy, a POSIX-conforming platform
getpwuid_r). -/
theorem pqGetpwuid_three_way_contract
    (rplat : PwPlatformReentrant) (lplat : PwPlatformLegacy)
    (hpos : PosixPwContract rplat) (uid : Nat) (s : PwState) :
    ((lplat.lookup uid).1 ≠ none →
      (pqGetpwuid .legacy rplat lplat uid s).1 = 0 ∧
      (pqGetpwuid .legacy rplat lplat uid s).2.resultSlot ≠ none) ∧
    (lplat.lookup uid = (none, none) →
      (pqGetpwuid .legacy rplat lplat uid s).1 = 0 ∧
      (pqGetpwuid .legacy rplat lplat uid s).2.resultSlot = none) ∧
    (∀ e : Int, lplat.lookup uid = (none, some e) →
      (pqGetpwuid .legacy rplat lplat uid s).1 = e ∧
      (pqGetpwuid .legacy rplat lplat uid s).2.resultSlot = none) ∧
    ((pqGetpwuid .legacy rplat lplat uid s).1 ≠ 0 →
      (pqGetpwuid .legacy rplat lplat uid s).2.resultSlot = none) ∧
    ((pqGetpwuid .reentrant rplat lplat uid s).1 ≠ 0 →
      (pqGetpwuid .reentrant rplat lplat uid s).2.resultSlot = none) := by
  rcases hl : lplat.lookup uid with ⟨res, errs⟩
  refine ⟨?_, ?_, ?_, ?_, ?_⟩
  · intro hres
    cases res with
    | none => exact absurd rfl hres
    | some i => simp [pqGetpwuid, pqGetpwuidLegacy, hl]
  · intro hboth
    injection hboth with h1 h2
    subst h1; subst h2
    simp [pqGetpwuid, pqGetpwuidLegacy, hl]
  · intro e hboth
    injection hboth with h1 h2
    subst h1; subst h2
    simp [pqGetpwuid, pqGetpwuidLegacy, hl]
  · intro hne
    cases res with
    | none => simp [pqGetpwuid, pqGetpwuidLegacy, hl]
    | some i => simp [pqGetpwuid, pqGetpwuidLegacy, hl] at hne
  · intro hne
    simp only [pqGetpwuid, pqGetpwuidReentrant] at hne ⊢
    exact hpos uid s.resultbuf s.buffer s.buflen hne

/-- Witness for Claim C1 at a concrete platform and state: a platform
whose legacy lookup fails with errno 34 and whose reentrant form always
reports status 0. -/
theorem pqGetpwuid_three_way_contract_witness :
    ((⟨fun _ => (none, some 34)⟩ : PwPlatformLegacy).lookup 7 = (none, some 34)) ∧
    (pqGetpwuid .legacy ⟨fun _ _ _ _ => ⟨0, some (.callerBuf 0), [], []⟩⟩
        ⟨fun _ => (none, some 34)⟩ 7
        ⟨0, none, [], [], 0, 0⟩).1 = 34 := by
  refine ⟨rfl, ?_⟩
  have h := pqGetpwuid_three_way_contract
    ⟨fun _ _ _ _ => ⟨0, some (.callerBuf 0), [], []⟩⟩
    ⟨fun _ => (none, some 34)⟩
    (by intro uid rb b n hne; exact absurd rfl hne) 7
    ⟨0, none, [], [], 0, 0⟩
  exact (h.2.2.1 34 rfl).1

/-- Claim C2: in the legacy strategy pqGetpwuid clears errno before the
lookup and reads it immediately after: on a NULL result the errno value
at that instant (the final errno of the call) is the return code, which
is 0 when the lookup did not set errno; on a non-NULL result the return
code is 0 regardless of errno. -/
theorem pqGetpwuidLegacy_errno_protocol
    (lplat : PwPlatformLegacy) (uid : Nat) (s : PwState) :
    ((lplat.lookup uid).1 = none →
      (pqGetpwuidLegacy lplat uid s).1 =
        (pqGetpwuidLegacy lplat uid s).2.errno ∧
      (pqGetpwuidLegacy lplat uid s).2.errno = ((lplat.lookup uid).2).getD 0 ∧
      (pqGetpwuidLegacy lplat uid s).2.resultSlot = none) ∧
    ((lplat.lookup uid).1 = none → (lplat.lookup uid).2 = none →
      (pqGetpwuidLegacy lplat uid s).1 = 0) ∧
    ((lplat.lookup uid).1 ≠ none →
      (pqGetpwuidLegacy lplat uid s).1 = 0) := by
  rcases hl : lplat.lookup uid with ⟨res, errs⟩
  refine ⟨?_, ?_, ?_⟩
  · intro hres
    simp only at hres
    subst hres
    simp [pqGetpwuidLegacy, hl]
  · intro hres herrs
    simp only at hres herrs
    subst hres; subst herrs
    simp [pqGetpwuidLegacy, hl]
  · intro hres
    cases res with
    | none => exact absurd rfl hres
    | some i => simp [pqGetpwuidLegacy, hl]

/-- Witness for Claim C2: a legacy platform that fails with errno 13 on
uid 5; the return code equals the final errno, 13. -/
theorem pqGetpwuidLegacy_errno_protocol_witness :
    (pqGetpwuidLegacy ⟨fun _ => (none, some 13)⟩ 5
        ⟨0, some (.staticStore 9), [1], [2], 1, 0⟩).1 = 13 := by
  have h := pqGetpwuidLegacy_errno_protocol ⟨fun _ => (none, some 13)⟩ 5
    ⟨0, some (.staticStore 9), [1], [2], 1, 0⟩
  have h2 := (h.1 rfl).1
  have h3 := (h.1 rfl).2.1
  rw [h2, h3]
  rfl

/-- Claim C3: in the legacy strategy pqGethostbyname writes *herrno iff
the lookup result is non-NULL: on success *herrno receives the h_errno
value read immediately after the lookup (the final h_errno of the call)
and the status is 0; on a NULL result *herrno is left holding its prior
value and the failure sentinel -1 is returned. -/
theorem pqGethostbynameLegacy_herrno_protocol
    (plat : HostPlatformLegacy) (name : String) (s : HostState) :
    ((plat.lookup name).1 ≠ none →
      (pqGethostbynameLegacy plat name s).2.herrnoSlot =
        (pqGethostbynameLegacy plat name s).2.hErrnoGlobal ∧
      (pqGethostbynameLegacy plat name s).1 = 0) ∧
    ((plat.lookup name).1 = none →
      (pqGethostbynameLegacy plat name s).2.herrnoSlot = s.herrnoSlot ∧
      (pqGethostbynameLegacy plat name s).1 = -1) := by
  rcases hl : plat.lookup name with ⟨res, hset⟩
  constructor
  · intro hres
    cases res with
    | none => exact absurd rfl hres
    | some i => simp [pqGethostbynameLegacy, hl]
  · intro hres
    simp only at hres
    subst hres
    simp [pqGethostbynameLegacy, hl]

/-- Witness for Claim C3: a legacy resolver that fails on the name and
writes 2 into h_errno; the caller slot *herrno keeps its prior value 99
and the status is -1. -/
theorem pqGethostbynameLegacy_herrno_protocol_witness :
    (pqGethostbynameLegacy ⟨fun _ => (none, some 2)⟩ "nohost"
        ⟨0, none, 99, [], [], 0, 0⟩).2.herrnoSlot = 99 ∧
    (pqGethostbynameLegacy ⟨fun _ => (none, some 2)⟩ "nohost"
        ⟨0, none, 99, [], [], 0, 0⟩).1 = -1 := by
  have h := pqGethostbynameLegacy_herrno_protocol ⟨fun _ => (none, some 2)⟩
    "nohost" ⟨0, none, 99, [], [], 0, 0⟩
  exact h.2 rfl

/-- Claim C4: in the reentrant strategy pqGethostbyname normalizes the
platform-variable return convention of gethostbyname_r: the status is 0
iff the pointer stored into *result is non-null, and the status is the
failure sentinel -1 iff that pointer is null. -/
theorem pqGethostbynameReentrant_normalizes
    (plat : HostPlatformReentrant) (name : String) (s : HostState) :
    ((pqGethostbynameReentrant plat name s).1 = 0 ↔
      (pqGethostbynameReentrant plat name s).2.resultSlot ≠ none) ∧
    ((pqGethostbynameReentrant plat name s).1 = -1 ↔
      (pqGethostbynameReentrant plat name s).2.resultSlot = none) := by
  cases hres : (plat.call name s.resultbuf s.buffer s.buflen).result with
  | none => simp [pqGethostbynameReentrant, hres]
  | some p => simp [pqGethostbynameReentrant, hres]

/-- Witness for Claim C4 at a concrete resolver returning a pointer into
the caller buffer: status 0 and a non-null *result. -/
theorem pqGethostbynameReentrant_normalizes_witness :
    (pqGethostbynameReentrant ⟨fun _ _ _ _ => ⟨some (.callerBuf 4), some 0, [7], [8]⟩⟩
        "db" ⟨0, none, 0, [7], [8], 1, 0⟩).1 = 0 := by
  have h := pqGethostbynameReentrant_normalizes
    ⟨fun _ _ _ _ => ⟨some (.callerBuf 4), some 0, [7], [8]⟩⟩
    "db" ⟨0, none, 0, [7], [8], 1, 0⟩
  exact h.1.mpr (by decide)

/-- The reentrant identity-lookup strategy as the spec words it:
"delegate directly, passing through the buffer and length unchanged" —
a single getpwuid_r invocation on the same five arguments, whose status
and output effects reach the caller untouched, with no extra
normalization. -/
def pqGetpwuidReentrantSpec (plat : PwPlatformReentrant) (uid : Nat)
    (s : PwState) : Int × PwState :=
  ((plat.call uid s.resultbuf s.buffer s.buflen).status,
    { s with
      resultSlot := (plat.call uid s.resultbuf s.buffer s.buflen).result,
      resultbuf := (plat.call uid s.resultbuf s.buffer s.buflen).resultbuf,
      buffer := (plat.call uid s.resultbuf s.buffer s.buflen).buffer,
      calls := s.calls + 1 })

/-- Claim C6: in the reentrant strategy pqGetpwuid delegates directly to
getpwuid_r: its return value and all output effects equal those of one
platform call on the same five arguments (buffer and length passed
through unchanged), i.e. the source branch coincides with the
spec-side delegation model, componentwise. -/
theorem pqGetpwuidReentrant_delegates
    (plat : PwPlatformReentrant) (uid : Nat) (s : PwState) :
    pqGetpwuidReentrant plat uid s = pqGetpwuidReentrantSpec plat uid s ∧
    (pqGetpwuidReentrant plat uid s).1 =
      (plat.call uid s.resultbuf s.buffer s.buflen).status ∧
    (pqGetpwuidReentrant plat uid s).2.resultSlot =
      (plat.call uid s.resultbuf s.buffer s.buflen).result ∧
    (pqGetpwuidReentrant plat uid s).2.resultbuf =
      (plat.call uid s.resultbuf s.buffer s.buflen).resultbuf ∧
    (pqGetpwuidReentrant plat uid s).2.buffer =
      (plat.call uid s.resultbuf s.buffer s.buflen).buffer ∧
    (pqGetpwuidReentrant plat uid s).2.errno = s.errno ∧
    (pqGetpwuidReentrant plat uid s).2.buflen = s.buflen ∧
    (pqGetpwuidReentrant plat uid s).2.calls = s.calls + 1 :=
  ⟨rfl, rfl, rfl, rfl, rfl, rfl, rfl, rfl⟩

/-- Claim C7: both wrappers are deterministic given the platform: two
calls with identical inputs (uid / name, record, buffer, length) and
identical ambient globals, under the same platform behaviour, yield
identical status codes and identical output-slot and buffer contents, in
every strategy — whatever stale values the output reference slots held
before the calls, and however many platform calls happened before. -/
theorem pq_wrappers_deterministic
    (rp : PwPlatformReentrant) (lp : PwPlatformLegacy)
    (hrp : HostPlatformReentrant) (hlp : HostPlatformLegacy)
    (uid : Nat) (name : String) (s1 s2 : PwState) (t1 t2 : HostState)
    (hs : s1.errno = s2.errno ∧ s1.resultbuf = s2.resultbuf ∧
          s1.buffer = s2.buffer ∧ s1.buflen = s2.buflen)
    (ht : t1.hErrnoGlobal = t2.hErrnoGlobal ∧ t1.herrnoSlot = t2.herrnoSlot ∧
          t1.resultbuf = t2.resultbuf ∧ t1.buffer = t2.buffer ∧
          t1.buflen = t2.buflen) :
    ∀ strat : Strategy,
    ((pqGetpwuid strat rp lp uid s1).1 = (pqGetpwuid strat rp lp uid s2).1 ∧
     (pqGetpwuid strat rp lp uid s1).2.resultSlot =
       (pqGetpwuid strat rp lp uid s2).2.resultSlot ∧
     (pqGetpwuid strat rp lp uid s1).2.resultbuf =
       (pqGetpwuid strat rp lp uid s2).2.resultbuf ∧
     (pqGetpwuid strat rp lp uid s1).2.buffer =
       (pqGetpwuid strat rp lp uid s2).2.buffer) ∧
    ((pqGethostbyname strat hrp hlp name t1).1 =
       (pqGethostbyname strat hrp hlp name t2).1 ∧
     (pqGethostbyname strat hrp hlp name t1).2.resultSlot =
       (pqGethostbyname strat hrp hlp name t2).2.resultSlot ∧
     (pqGethostbyname strat hrp hlp name t1).2.herrnoSlot =
       (pqGethostbyname strat hrp hlp name t2).2.herrnoSlot ∧
     (pqGethostbyname strat hrp hlp name t1).2.resultbuf =
       (pqGethostbyname strat hrp hlp name t2).2.resultbuf ∧
     (pqGethostbyname strat hrp hlp name t1).2.buffer =
       (pqGethostbyname strat hrp hlp name t2).2.buffer) := by
  obtain ⟨he, hrb, hb, hn⟩ := hs
  obtain ⟨hg, hh, hurb, hub, hun⟩ := ht
  intro strat
  cases strat <;>
    simp [pqGetpwuid, pqGethostbyname, pqGetpwuidReentrant, pqGetpwuidLegacy,
          pqGethostbynameReentrant, pqGethostbynameLegacy,
          he, hrb, hb, hn, hg, hh, hurb, hub, hun]

/-- Witness for Claim C7: two concrete states that differ only in the
stale value of the output reference slot and in the prior call count
give the same legacy status and the same stored result. -/
theorem pq_wrappers_deterministic_witness :
    (pqGetpwuid .legacy ⟨fun _ _ _ _ => ⟨0, none, [], []⟩⟩
        ⟨fun _ => (some 1, none)⟩ 3
        ⟨0, some (.staticStore 8), [1], [2], 1, 5⟩).1 =
      (pqGetpwuid .legacy ⟨fun _ _ _ _ => ⟨0, none, [], []⟩⟩
        ⟨fun _ => (some 1, none)⟩ 3 ⟨0, none, [1], [2], 1, 0⟩).1 := by
  have h := pq_wrappers_deterministic
    ⟨fun _ _ _ _ => ⟨0, none, [], []⟩⟩ ⟨fun _ => (some 1, none)⟩
    ⟨fun _ _ _ _ => ⟨none, none, [], []⟩⟩ ⟨fun _ => (none, none)⟩
    3 "x"
    ⟨0, some (.staticStore 8), [1], [2], 1, 5⟩ ⟨0, none, [1], [2], 1, 0⟩
    ⟨0, none, 0, [], [], 0, 0⟩ ⟨0, none, 0, [], [], 0, 0⟩
    ⟨rfl, rfl, rfl, rfl⟩ ⟨rfl, rfl, rfl, rfl, rfl⟩ Strategy.legacy
  exact h.1.1

/-- Claim C8: in both strategies pqGethostbyname returns exactly 0 or
exactly -1, with 0 iff the stored *result is non-null; and in the legacy
strategy the underlying failure reason never reaches the caller: two
legacy resolvers that both fail on the name, with any h_errno effects,
give identical status, *result and *herrno outputs. -/
theorem pqGethostbyname_status_range
    (rplat : HostPlatformReentrant) (lplat : HostPlatformLegacy)
    (name : String) (s : HostState) :
    (∀ strat : Strategy,
      (pqGethostbyname strat rplat lplat name s).1 = 0 ∨
      (pqGethostbyname strat rplat lplat name s).1 = -1) ∧
    (∀ strat : Strategy,
      (pqGethostbyname strat rplat lplat name s).1 = 0 ↔
      (pqGethostbyname strat rplat lplat name s).2.resultSlot ≠ none) ∧
    (∀ lplat2 : HostPlatformLegacy, ∀ e1 e2 : Option Int,
      lplat.lookup name = (none, e1) → lplat2.lookup name = (none, e2) →
      (pqGethostbyname .legacy rplat lplat name s).1 =
        (pqGethostbyname .legacy rplat lplat2 name s).1 ∧
      (pqGethostbyname .legacy rplat lplat name s).2.resultSlot =
        (pqGethostbyname .legacy rplat lplat2 name s).2.resultSlot ∧
      (pqGethostbyname .legacy rplat lplat name s).2.herrnoSlot =
        (pqGethostbyname .legacy rplat lplat2 name s).2.herrnoSlot) := by
  refine ⟨?_, ?_, ?_⟩
  · intro strat
    cases strat with
    | reentrant =>
      cases hres : (rplat.call name s.resultbuf s.buffer s.buflen).result with
      | none => simp [pqGethostbyname, pqGethostbynameReentrant, hres]
      | some p => simp [pqGethostbyname, pqGethostbynameReentrant, hres]
    | legacy =>
      cases hres : (lplat.lookup name).1 with
      | none => simp [pqGethostbyname, pqGethostbynameLegacy, hres]
      | some p => simp [pqGethostbyname, pqGethostbynameLegacy, hres]
  · intro strat
    cases strat with
    | reentrant =>
      cases hres : (rplat.call name s.resultbuf s.buffer s.buflen).result with
      | none => simp [pqGethostbyname, pqGethostbynameReentrant, hres]
      | some p => simp [pqGethostbyname, pqGethostbynameReentrant, hres]
    | legacy =>
      cases hres : (lplat.lookup name).1 with
      | none => simp [pqGethostbyname, pqGethostbynameLegacy, hres]
      | some p => simp [pqGethostbyname, pqGethostbynameLegacy, hres]
  · intro lplat2 e1 e2 h1 h2
    simp [pqGethostbyname, pqGethostbynameLegacy, h1, h2]

/-- Witness for Claim C8: two failing legacy resolvers, one writing 1
and the other 2 into h_errno, give the same *herrno output. -/
theorem pqGethostbyname_status_range_witness :
    (pqGethostbyname .legacy ⟨fun _ _ _ _ => ⟨none, none, [], []⟩⟩
        ⟨fun _ => (none, some 1)⟩ "h" ⟨0, none, 7, [], [], 0, 0⟩).2.herrnoSlot =
      (pqGethostbyname .legacy ⟨fun _ _ _ _ => ⟨none, none, [], []⟩⟩
        ⟨fun _ => (none, some 2)⟩ "h" ⟨0, none, 7, [], [], 0, 0⟩).2.herrnoSlot := by
  have h := pqGethostbyname_status_range
    ⟨fun _ _ _ _ => ⟨none, none, [], []⟩⟩ ⟨fun _ => (none, some 1)⟩
    "h" ⟨0, none, 7, [], [], 0, 0⟩
  exact (h.2.2 ⟨fun _ => (none, some 2)⟩ (some 1) (some 2) rfl rfl).2.2

/-- Claim C9: the legacy strategies of both wrappers neither read nor
write the caller resultbuf, buffer and buflen: those fields come out of
the call unchanged, the status and stored outputs are the same for any
replacement buffer contents and length (zero included) — so an
undersized buffer can never produce a buffer-too-small failure there —
and any non-null stored *result is a reference into platform static
storage, never into a caller buffer. -/
theorem pq_legacy_buffer_frame
    (lp : PwPlatformLegacy) (hlp : HostPlatformLegacy)
    (uid : Nat) (name : String) (s : PwState) (t : HostState) :
    ((pqGetpwuidLegacy lp uid s).2.resultbuf = s.resultbuf ∧
     (pqGetpwuidLegacy lp uid s).2.buffer = s.buffer ∧
     (pqGetpwuidLegacy lp uid s).2.buflen = s.buflen) ∧
    ((pqGethostbynameLegacy hlp name t).2.resultbuf = t.resultbuf ∧
     (pqGethostbynameLegacy hlp name t).2.buffer = t.buffer ∧
     (pqGethostbynameLegacy hlp name t).2.buflen = t.buflen) ∧
    (∀ rb b : List Nat, ∀ n : Nat,
      (pqGetpwuidLegacy lp uid
          { s with resultbuf := rb, buffer := b, buflen := n }).1 =
        (pqGetpwuidLegacy lp uid s).1 ∧
      (pqGetpwuidLegacy lp uid
          { s with resultbuf := rb, buffer := b, buflen := n }).2.resultSlot =
        (pqGetpwuidLegacy lp uid s).2.resultSlot) ∧
    (∀ rb b : List Nat, ∀ n : Nat,
      (pqGethostbynameLegacy hlp name
          { t with resultbuf := rb, buffer := b, buflen := n }).1 =
        (pqGethostbynameLegacy hlp name t).1 ∧
      (pqGethostbynameLegacy hlp name
          { t with resultbuf := rb, buffer := b, buflen := n }).2.resultSlot =
        (pqGethostbynameLegacy hlp name t).2.resultSlot ∧
      (pqGethostbynameLegacy hlp name
          { t with resultbuf := rb, buffer := b, buflen := n }).2.herrnoSlot =
        (pqGethostbynameLegacy hlp name t).2.herrnoSlot) ∧
    (∀ p : PtrVal, (pqGetpwuidLegacy lp uid s).2.resultSlot = some p →
      ∃ i, p = PtrVal.staticStore i) ∧
    (∀ p : PtrVal, (pqGethostbynameLegacy hlp name t).2.resultSlot = some p →
      ∃ i, p = PtrVal.staticStore i) := by
  refine ⟨⟨rfl, rfl, rfl⟩, ⟨rfl, rfl, rfl⟩, ?_, ?_, ?_, ?_⟩
  · intro rb b n
    simp [pqGetpwuidLegacy]
  · intro rb b n
    simp [pqGethostbynameLegacy]
  · intro p hp
    cases hres : (lp.lookup uid).1 with
    | none => simp [pqGetpwuidLegacy, hres] at hp
    | some i =>
      simp [pqGetpwuidLegacy, hres] at hp
      exact ⟨i, hp.symm⟩
  · intro p hp
    cases hres : (hlp.lookup name).1 with
    | none => simp [pqGethostbynameLegacy, hres] at hp
    | some i =>
      simp [pqGethostbynameLegacy, hres] at hp
      exact ⟨i, hp.symm⟩

/-- Witness for Claim C9: with a found uid, an empty zero-length buffer
gives the same status as a sized one, and the stored result is a static
storage reference. -/
theorem pq_legacy_buffer_frame_witness :
    (pqGetpwuidLegacy ⟨fun _ => (some 2, none)⟩ 4
        ⟨0, none, [], [], 0, 0⟩).1 =
      (pqGetpwuidLegacy ⟨fun _ => (some 2, none)⟩ 4
        ⟨0, none, [3], [4, 4], 2, 0⟩).1 ∧
    (∃ i, PtrVal.staticStore 2 = PtrVal.staticStore i) := by
  have h := pq_legacy_buffer_frame ⟨fun _ => (some 2, none)⟩
    ⟨fun _ => (none, none)⟩ 4 "n" ⟨0, none, [3], [4, 4], 2, 0⟩
    ⟨0, none, 0, [], [], 0, 0⟩
  refine ⟨(h.2.2.1 [] [] 0).1, ?_⟩
  exact h.2.2.2.2.1 (PtrVal.staticStore 2) rfl

/-- Claim C10: on every path of every strategy both wrappers store into
the output reference slot *result before returning — the slot never
retains its prior value, i.e. the stored result is the same whatever the
slot held at entry — while for pqGethostbyname the *herrno slot can be
left holding its prior value (it is, on the legacy failure path). -/
theorem pq_resultSlot_always_assigned
    (rp : PwPlatformReentrant) (lp : PwPlatformLegacy)
    (hrp : HostPlatformReentrant) (hlp : HostPlatformLegacy)
    (uid : Nat) (name : String) (s : PwState) (t : HostState)
    (v w : Option PtrVal) :
    (∀ strat : Strategy,
      (pqGetpwuid strat rp lp uid { s with resultSlot := v }).2.resultSlot =
        (pqGetpwuid strat rp lp uid s).2.resultSlot ∧
      (pqGetpwuid strat rp lp uid { s with resultSlot := v }).1 =
        (pqGetpwuid strat rp lp uid s).1) ∧
    (∀ strat : Strategy,
      (pqGethostbyname strat hrp hlp name { t with resultSlot := w }).2.resultSlot =
        (pqGethostbyname strat hrp hlp name t).2.resultSlot ∧
      (pqGethostbyname strat hrp hlp name { t with resultSlot := w }).1 =
        (pqGethostbyname strat hrp hlp name t).1) ∧
    ((hlp.lookup name).1 = none →
      (pqGethostbynameLegacy hlp name t).2.herrnoSlot = t.herrnoSlot) := by
  refine ⟨?_, ?_, ?_⟩
  · intro strat
    cases strat <;>
      simp [pqGetpwuid, pqGetpwuidReentrant, pqGetpwuidLegacy]
  · intro strat
    cases strat <;>
      simp [pqGethostbyname, pqGethostbynameReentrant, pqGethostbynameLegacy]
  · intro hres
    simp [pqGethostbynameLegacy, hres]

/-- Witness for Claim C10: a failing legacy resolver leaves the prior
*herrno value 42 in place, and a stale *result value is overwritten. -/
theorem pq_resultSlot_always_assigned_witness :
    (pqGethostbynameLegacy ⟨fun _ => (none, none)⟩ "u"
        ⟨0, some (.staticStore 3), 42, [], [], 0, 0⟩).2.herrnoSlot = 42 := by
  have h := pq_resultSlot_always_assigned
    ⟨fun _ _ _ _ => ⟨0, none, [], []⟩⟩ ⟨fun _ => (none, none)⟩
    ⟨fun _ _ _ _ => ⟨none, none, [], []⟩⟩ ⟨fun _ => (none, none)⟩
    0 "u" ⟨0, none, [], [], 0, 0⟩
    ⟨0, some (.staticStore 3), 42, [], [], 0, 0⟩ none none
  exact h.2.2 rfl

/-- Counterexample to Claim C5 as stated: in the legacy strategy the
caller buffer is never consulted, so a call with a zero-length buffer
and a uid the legacy getpwuid resolves returns status 0 with a non-null
*result — not the promised non-zero status with *result null. -/
theorem pqGetpwuid_undersized_counterexample :
    (pqGetpwuid .legacy ⟨fun _ _ _ _ => ⟨0, none, [], []⟩⟩
        ⟨fun _ => (some 3, none)⟩ 7 ⟨0, none, [], [], 0, 0⟩).1 = 0 ∧
    (pqGetpwuid .legacy ⟨fun _ _ _ _ => ⟨0, none, [], []⟩⟩
        ⟨fun _ => (some 3, none)⟩ 7 ⟨0, none, [], [], 0, 0⟩).2.resultSlot =
      some (.staticStore 3) := by
  exact ⟨rfl, rfl⟩

/-- Claim C5 amended: in the reentrant strategy, whenever the platform
getpwuid_r reports a non-zero error code (e.g. buffer too small) on the
given arguments and obeys the POSIX contract, pqGetpwuid returns that
non-zero code with *result null — never a partially populated record —
and performs exactly one platform call with no internal retry; the
legacy strategy also performs exactly one platform call and ignores the
caller buffer entirely, so an undersized buffer cannot fail there. -/
theorem pqGetpwuid_undersized_no_retry
    (rplat : PwPlatformReentrant) (lplat : PwPlatformLegacy)
    (hpos : PosixPwContract rplat) (uid : Nat) (s : PwState)
    (hfail : (rplat.call uid s.resultbuf s.buffer s.buflen).status ≠ 0) :
    (pqGetpwuidReentrant rplat uid s).1 =
      (rplat.call uid s.resultbuf s.buffer s.buflen).status ∧
    (pqGetpwuidReentrant rplat uid s).1 ≠ 0 ∧
    (pqGetpwuidReentrant rplat uid s).2.resultSlot = none ∧
    (pqGetpwuidReentrant rplat uid s).2.calls = s.calls + 1 ∧
    (pqGetpwuidLegacy lplat uid s).2.calls = s.calls + 1 ∧
    (∀ b : List Nat, ∀ n : Nat,
      (pqGetpwuidLegacy lplat uid { s with buffer := b, buflen := n }).1 =
        (pqGetpwuidLegacy lplat uid s).1) := by
  refine ⟨rfl, hfail, ?_, rfl, rfl, ?_⟩
  · exact hpos uid s.resultbuf s.buffer s.buflen hfail
  · intro b n
    simp [pqGetpwuidLegacy]

/-- Witness for the amended Claim C5: a reentrant platform reporting
error 34 (ERANGE) with a null result on a one-byte buffer; the wrapper
returns 34, stores no result, and has made exactly one platform call. -/
theorem pqGetpwuid_undersized_no_retry_witness :
    (pqGetpwuidReentrant ⟨fun _ _ _ _ => ⟨34, none, [5], [6]⟩⟩ 2
        ⟨0, none, [5], [6], 1, 0⟩).1 = 34 ∧
    (pqGetpwuidReentrant ⟨fun _ _ _ _ => ⟨34, none, [5], [6]⟩⟩ 2
        ⟨0, none, [5], [6], 1, 0⟩).2.resultSlot = none ∧
    (pqGetpwuidReentrant ⟨fun _ _ _ _ => ⟨34, none, [5], [6]⟩⟩ 2
        ⟨0, none, [5], [6], 1, 0⟩).2.calls = 1 := by
  have h := pqGetpwuid_undersized_no_retry
    ⟨fun _ _ _ _ => ⟨34, none, [5], [6]⟩⟩ ⟨fun _ => (none, none)⟩
    (by intro uid rb b n hne; rfl) 2 ⟨0, none, [5], [6], 1, 0⟩
    (by decide)
  exact ⟨h.1, h.2.2.1, h.2.2.2.2.1⟩

end Pg
